import Mathlib

/-!
# Himalayan Expedition Analytics — verification of the aggregation pipeline

Shallow embedding of the tabular pipeline in `himalayan-analytics/notepad.py`.

A pandas cell of object dtype is modelled as `Option String` (`none` = NaN);
the expedition `year` column is modelled as `Option Int`.  Each table is a
list of typed rows matching the data model (Expedition, Member, Peak).
Pandas operations used by the script are translated one by one:
`Series.value_counts` (drop nulls, count by first-occurrence key, sort
descending by count), `nunique` (count of distinct non-null values),
`DataFrame.merge(..., how="left")`, boolean-mask filtering, `groupby.agg`,
`melt`, `Series.isin`, `str.contains(case=False, na=False)`,
`astype(str).str.lower()` (NaN prints as "nan").
-/

namespace Himalayan

/-- ASCII lower-casing, modelling Python `str.lower()` on the data at hand. -/
def lowerStr (s : String) : String := String.mk (s.data.map Char.toLower)

/-- Does the first character list start with the second? -/
def begMatch : List Char → List Char → Bool
  | _, [] => true
  | [], _ :: _ => false
  | c :: cs, p :: ps => c == p && begMatch cs ps

/-- Does the first character list contain the second as a contiguous run? -/
def hasSub : List Char → List Char → Bool
  | [], p => p.isEmpty
  | c :: cs, p => begMatch (c :: cs) p || hasSub cs p

/-- Case-insensitive substring test: `pat.lower() in s.lower()`, modelling
pandas `Series.str.contains(pat, case=False)` on a non-null cell. -/
def containsCI (s pat : String) : Bool :=
  hasSub (lowerStr s).toList (lowerStr pat).toList

/-- Python `astype(str)` on a cell: NaN renders as the string "nan". -/
def pyStr : Option String → String
  | none => "nan"
  | some s => s

/-- The success-literal set of `notepad.py` lines 117 and 152. -/
def successLits : List String := ["true", "1", "y", "yes"]

/-- The success-indicator test applied at lines 117 and 152:
`astype(str).str.lower().isin(['true','1','y','yes'])`. -/
def isSuccess (v : Option String) : Bool :=
  successLits.contains (lowerStr (pyStr v))

/-- A row of `members.csv` after column-name stripping, restricted to the
columns the pipeline reads: `peakid`, `citizen`, the name column and the
success-indicator column (resolved by the source's substring heuristic). -/
structure MemberRow where
  peakid : Option String
  citizen : Option String
  name : Option String
  success : Option String
deriving DecidableEq, Repr

/-- A row of `peaks.csv`, restricted to `peakid` and `pkname`. -/
structure PeakRow where
  peakid : Option String
  pkname : Option String
deriving DecidableEq, Repr

/-- A row of `exped.csv`, restricted to `expid`, `year` and `success1`. -/
structure ExpedRow where
  expid : Option String
  year : Option Int
  success1 : Option String
deriving DecidableEq, Repr

/-- Drop the nulls of a column, as `Series.dropna()` does. -/
def nonNull {α : Type} (xs : List (Option α)) : List α := xs.filterMap id

/-- Distinct values of a list in order of first occurrence, the order a
pandas hash table produces. -/
def firstDedupAux {α : Type} [DecidableEq α] : List α → List α → List α
  | _, [] => []
  | seen, a :: xs =>
    if a ∈ seen then firstDedupAux seen xs
    else a :: firstDedupAux (a :: seen) xs

/-- Distinct values of a list in order of first occurrence. -/
def firstDedup {α : Type} [DecidableEq α] (xs : List α) : List α :=
  firstDedupAux [] xs

/-- Pandas `Series.nunique()`: number of distinct non-null values. -/
def nunique {α : Type} [DecidableEq α] (xs : List (Option α)) : Nat :=
  (firstDedup (nonNull xs)).length

/-- Descending-count order on keyed counts, the order `value_counts` sorts by. -/
def cntGE {α : Type} (a b : α × Nat) : Prop := b.2 ≤ a.2

instance {α : Type} : DecidableRel (cntGE (α := α)) :=
  fun a b => inferInstanceAs (Decidable (b.2 ≤ a.2))

instance {α : Type} : IsTotal (α × Nat) cntGE :=
  ⟨fun a b => (Nat.le_total b.2 a.2).imp id id⟩

instance {α : Type} : IsTrans (α × Nat) cntGE :=
  ⟨fun _ _ _ hab hbc => Nat.le_trans hbc hab⟩

/-- Pandas `Series.value_counts()`: drop nulls, pair each distinct value with its
occurrence count, sort descending by count. -/
def value_counts {α : Type} [DecidableEq α] (xs : List (Option α)) :
    List (α × Nat) :=
  let v := nonNull xs
  List.insertionSort cntGE ((firstDedup v).map (fun k => (k, v.count k)))

/-! ## Load-time default fill (`load_data`, lines 35–37) -/

/-- Apply `fillna` to one cell with default `d`. -/
def fillCell (d : String) : Option String → Option String
  | none => some d
  | some s => some s

/-- Line 36: `members.fillna({"peakid": "UNKNOWN", "citizen": "UNKNOWN"})`. -/
def fillMemberRow (m : MemberRow) : MemberRow :=
  { m with peakid := fillCell "UNKNOWN" m.peakid,
           citizen := fillCell "UNKNOWN" m.citizen }

def fillMembers (members : List MemberRow) : List MemberRow :=
  members.map fillMemberRow

/-- Line 37: `peaks.fillna({"pkname": "UNKNOWN"})`. -/
def fillPeakRow (p : PeakRow) : PeakRow :=
  { p with pkname := fillCell "UNKNOWN" p.pkname }

/-- Line 35: `exped.fillna({"success1": "unknown"})`. -/
def fillExpedRow (e : ExpedRow) : ExpedRow :=
  { e with success1 := fillCell "unknown" e.success1 }

/-! ## Filter stage (lines 60–61) -/

/-- Line 60: `exped[exped["year"] == selected_year]` (a NaN year compares
unequal to any selected year, as in pandas). -/
def filter_year (exped : List ExpedRow) (y : Int) : List ExpedRow :=
  exped.filter (fun e => decide (e.year = some y))

/-- Line 61: `members[members["citizen"] == selected_country]`. -/
def filter_citizen (members : List MemberRow) (c : String) : List MemberRow :=
  members.filter (fun m => decide (m.citizen = some c))

/-! ## Top 5 most climbed peaks (lines 76–79) -/

/-- One block of the left join at line 78: the rows a counted peak id
contributes to the merge result.  A matched id contributes every matching
peak row; an unmatched id contributes a single row with a null `pkname`. -/
def joinPeak (peaks : List PeakRow) (pc : String × Nat) :
    List (String × Nat × Option String) :=
  let ms := peaks.filter (fun p => decide (p.peakid = some pc.1))
  if ms.isEmpty then [(pc.1, pc.2, none)]
  else ms.map (fun p => (pc.1, pc.2, p.pkname))

/-- Lines 76–78: `members["peakid"].value_counts()` then
`.merge(peaks[["peakid","pkname"]], on="peakid", how="left")`, keeping the
descending-count order of the left operand as `how="left"` does. -/
def top_peaks (members : List MemberRow) (peaks : List PeakRow) :
    List (String × Nat × Option String) :=
  (value_counts (members.map (·.peakid))).flatMap (joinPeak peaks)

/-- Line 79: `top_peaks.head(5)`. -/
def top5 (members : List MemberRow) (peaks : List PeakRow) :
    List (String × Nat × Option String) :=
  (top_peaks members peaks).take 5

/-! ## Percentage of peaks climbed (lines 105–107) -/

/-- Line 105: `members["peakid"].dropna().nunique()`. -/
def peaks_climbed (members : List MemberRow) : Nat :=
  nunique (members.map (·.peakid))

/-- Line 106: `peaks["peakid"].nunique()` (nunique itself drops nulls). -/
def total_peaks (peaks : List PeakRow) : Nat :=
  nunique (peaks.map (·.peakid))

/-- Line 107: `(peaks_climbed / total_peaks) * 100`.  The division is NOT
guarded in the source: when `total_peaks = 0` Python raises an uncaught
`ZeroDivisionError`, modelled here as `none`. -/
def climbed_pct (members : List MemberRow) (peaks : List PeakRow) : Option ℚ :=
  if total_peaks peaks = 0 then none
  else some ((peaks_climbed members : ℚ) / (total_peaks peaks : ℚ) * 100)

/-! ## Most successful climber (lines 111–124) -/

/-- Line 117: rows whose success indicator passes `isSuccess`. -/
def survivors (members : List MemberRow) : List MemberRow :=
  members.filter (fun m => isSuccess m.success)

/-- The non-null names of the successful rows, whose counts
`value_counts` reports at line 119. -/
def survNames (members : List MemberRow) : List String :=
  nonNull ((survivors members).map (·.name))

/-- Lines 117–122: `value_counts().idxmax()` of the survivors' names.
`none` covers the source's "No successful climbs found" warning branch
(empty survivor set); a non-empty survivor set whose names are all null
makes `idxmax` raise on an empty series, also folded into `none`. -/
def most_successful (members : List MemberRow) : Option String :=
  match value_counts ((survivors members).map (·.name)) with
  | [] => none
  | (n, _) :: _ => some n

/-! ## Climbing trends over time (lines 129–135) -/

/-- One aggregated row of `yearly_summary`. -/
structure YearAgg where
  year : Int
  total_expeditions : Nat
  successful_expeditions : Nat
deriving DecidableEq, Repr

/-- The distinct non-null years in ascending order, as `groupby("year")`
produces (groupby drops null keys and sorts keys by default). -/
def yearsOf (exped : List ExpedRow) : List Int :=
  List.insertionSort (fun a b => a ≤ b) (firstDedup (nonNull (exped.map (·.year))))

/-- Lines 129–132: per year, `count` of non-null `expid` and the number of
rows with `success1 == "success"` (a null never equals "success"). -/
def yearly_summary (exped : List ExpedRow) : List YearAgg :=
  (yearsOf exped).map (fun y =>
    let g := exped.filter (fun e => decide (e.year = some y))
    ⟨y, (g.filter (fun e => decide (e.expid ≠ none))).length,
        (g.filter (fun e => decide (e.success1 = some "success"))).length⟩)

/-- Lines 134–135: `pd.melt(...)` into (year, metric, count) triples, all
`total_expeditions` rows first, then all `successful_expeditions` rows. -/
def trend_data (exped : List ExpedRow) : List (Int × String × Nat) :=
  (yearly_summary exped).map
      (fun r => (r.year, "total_expeditions", r.total_expeditions))
    ++ (yearly_summary exped).map
      (fun r => (r.year, "successful_expeditions", r.successful_expeditions))

/-! ## Successful Everest climbers (lines 151–153) -/

/-- Line 151: peak ids whose `pkname` contains "Everest" case-insensitively;
`na=False` excludes null names. -/
def everest_ids (peaks : List PeakRow) : List (Option String) :=
  (peaks.filter (fun p =>
    match p.pkname with
    | some n => containsCI n "Everest"
    | none => false)).map (·.peakid)

/-- Line 152: member rows whose `peakid` is among the Everest ids and whose
success indicator passes the success-literal test. -/
def everest_climbers (members : List MemberRow) (peaks : List PeakRow) :
    List MemberRow :=
  members.filter (fun m =>
    decide (m.peakid ∈ everest_ids peaks) && isSuccess m.success)

/-- Line 153: `everest_climbers.shape[0]`. -/
def everest_count (members : List MemberRow) (peaks : List PeakRow) : Nat :=
  (everest_climbers members peaks).length

/-! ## The analysis section as run (lines 101–155)

The script body is straight-line code.  Outputs 1 (top 5), 3 (most
successful), 4 (trend) and 5 (Everest) are wrapped in column-presence
`if` guards and fail soft; output 2 (percentage, line 107) is not
guarded, so when `total_peaks = 0` the `ZeroDivisionError` propagates and
the script dies before outputs 3–5 are computed.  `none` in a component
of the result means that output was never produced. -/

def runAnalysis (members : List MemberRow) (peaks : List PeakRow)
    (exped : List ExpedRow) :
    Option (List (String × Nat × Option String)) × Option ℚ ×
      Option (Option String) × Option (List (Int × String × Nat)) ×
      Option Nat :=
  let t5 := some (top5 members peaks)
  match climbed_pct members peaks with
  | none => (t5, none, none, none, none)
  | some q =>
      (t5, some q, some (most_successful members),
        some (trend_data exped), some (everest_count members peaks))

/-! ## State threading for the frame claim

The loaded tables, threaded through the filter and analysis section.
Every pandas call in lines 59–153 is value-producing on the four base
tables (the only in-place calls of the script are the documented
`fillna(..., inplace=True)` at load time, and the column rename at
line 77 which targets the derived `top_peaks` frame); an in-place
mutation of a base table would be modelled here by returning an updated
`Tables`. -/

structure Tables where
  exped : List ExpedRow
  members : List MemberRow
  peaks : List PeakRow
  refer : List String
deriving DecidableEq

/-- The outputs of one dashboard recomputation. -/
structure DashOut where
  filteredExped : List ExpedRow
  filteredMembers : List MemberRow
  top5Out : Option (List (String × Nat × Option String))
  pctOut : Option ℚ
  mostOut : Option (Option String)
  trendOut : Option (List (Int × String × Nat))
  everestOut : Option Nat
deriving DecidableEq

/-- Lines 59–61 as a state transformer: the filters read the tables and
build fresh views. -/
def filterStage (t : Tables) (y : Int) (c : String) :
    (List ExpedRow × List MemberRow) × Tables :=
  ((filter_year t.exped y, filter_citizen t.members c), t)

/-- Lines 75–153 as a state transformer over the loaded tables. -/
def analysisStage (t : Tables) :
    (Option (List (String × Nat × Option String)) × Option ℚ ×
      Option (Option String) × Option (List (Int × String × Nat)) ×
      Option Nat) × Tables :=
  (runAnalysis t.members t.peaks t.exped, t)

/-- One full recomputation of the dashboard for a selected year and
country: filter stage then analysis section, threading the table state. -/
def dashboard (t : Tables) (y : Int) (c : String) : DashOut × Tables :=
  let fs := filterStage t y c
  let an := analysisStage fs.2
  (⟨fs.1.1, fs.1.2, an.1.1, an.1.2.1, an.1.2.2.1,
    an.1.2.2.2.1, an.1.2.2.2.2⟩, an.2)

/-! ## Concrete tables used to instantiate the claims -/

/-- The member table of the most-successful-climber acceptance example:
(name, success indicator) rows ("Alice","yes"), ("Bob","no"), ("Alice","1");
the peak-id and citizenship cells are arbitrary concrete values. -/
def exMembers : List MemberRow :=
  [⟨some "E1", some "USA", some "Alice", some "yes"⟩,
   ⟨some "E1", some "UK", some "Bob", some "no"⟩,
   ⟨some "E2", some "USA", some "Alice", some "1"⟩]

/-- A one-row peak table: display name "Mount Everest", identifier E1. -/
def everestPeaks : List PeakRow := [⟨some "E1", some "Mount Everest"⟩]

/-- Three member rows referencing E1 with success indicators
"yes", "no" and "1". -/
def everestMembers : List MemberRow :=
  [⟨some "E1", some "USA", some "Ann", some "yes"⟩,
   ⟨some "E1", some "USA", some "Ben", some "no"⟩,
   ⟨some "E1", some "USA", some "Cam", some "1"⟩]

/-- The yearly-trend acceptance example: (year, outcome) rows
(2000,"success"), (2000,"failure"), (2001,"success"). -/
def exExped : List ExpedRow :=
  [⟨some "x1", some 2000, some "success"⟩,
   ⟨some "x2", some 2000, some "failure"⟩,
   ⟨some "x3", some 2001, some "success"⟩]

/-- A peak table holding the single peak P1, for the percentage bound
counterexample. -/
def cexPeaks : List PeakRow := [⟨some "P1", some "Peak One"⟩]

/-- Members referencing peaks P2 and P3, neither of which exists in
`cexPeaks` (the data model allows such unmatched foreign keys). -/
def cexMembers : List MemberRow :=
  [⟨some "P2", some "USA", some "Dee", some "yes"⟩,
   ⟨some "P3", some "UK", some "Eli", some "no"⟩]

/-- A member table in which one row has a null peak id, for the
load-time sentinel claim. -/
def nullMembers : List MemberRow :=
  [⟨none, some "USA", some "Ann", some "yes"⟩,
   ⟨some "E1", some "UK", some "Ben", some "no"⟩]

/-! ## Lemmas about the embedded pandas operations -/

theorem mem_nonNull {α : Type} {xs : List (Option α)} {a : α} :
    a ∈ nonNull xs ↔ some a ∈ xs := by
  constructor
  · intro h
    rcases List.mem_filterMap.mp h with ⟨b, hb, he⟩
    exact he ▸ hb
  · intro h
    exact List.mem_filterMap.mpr ⟨some a, h, rfl⟩

theorem mem_firstDedupAux {α : Type} [DecidableEq α] (l seen : List α) (a : α) :
    a ∈ firstDedupAux seen l ↔ a ∈ l ∧ a ∉ seen := by
  induction l generalizing seen with
  | nil => simp [firstDedupAux]
  | cons b bs ih =>
    by_cases hb : b ∈ seen
    · rw [firstDedupAux, if_pos hb, ih]
      constructor
      · rintro ⟨h1, h2⟩
        exact ⟨List.mem_cons_of_mem _ h1, h2⟩
      · rintro ⟨h1, h2⟩
        rcases List.mem_cons.mp h1 with rfl | h1
        · exact absurd hb h2
        · exact ⟨h1, h2⟩
    · rw [firstDedupAux, if_neg hb]
      simp only [List.mem_cons, ih]
      constructor
      · rintro (rfl | ⟨h1, h2⟩)
        · exact ⟨Or.inl rfl, hb⟩
        · exact ⟨Or.inr h1, fun hs => h2 (Or.inr hs)⟩
      · rintro ⟨hab | h1, h2⟩
        · exact Or.inl hab
        · by_cases hab : a = b
          · exact Or.inl hab
          · exact Or.inr ⟨h1, fun hs => hs.elim hab h2⟩

theorem nodup_firstDedupAux {α : Type} [DecidableEq α] (l seen : List α) :
    (firstDedupAux seen l).Nodup := by
  induction l generalizing seen with
  | nil => simp [firstDedupAux]
  | cons b bs ih =>
    by_cases hb : b ∈ seen
    · rw [firstDedupAux, if_pos hb]
      exact ih seen
    · rw [firstDedupAux, if_neg hb]
      refine List.Nodup.cons (fun hmem => ?_) (ih (b :: seen))
      exact ((mem_firstDedupAux bs (b :: seen) b).mp hmem).2 (List.mem_cons_self b seen)

theorem mem_firstDedup {α : Type} [DecidableEq α] {l : List α} {a : α} :
    a ∈ firstDedup l ↔ a ∈ l := by
  rw [firstDedup, mem_firstDedupAux]
  simp

theorem nodup_firstDedup {α : Type} [DecidableEq α] (l : List α) :
    (firstDedup l).Nodup :=
  nodup_firstDedupAux l []

theorem value_counts_perm {α : Type} [DecidableEq α] (xs : List (Option α)) :
    (value_counts xs).Perm
      ((firstDedup (nonNull xs)).map (fun k => (k, (nonNull xs).count k))) :=
  List.perm_insertionSort _ _

theorem sorted_value_counts {α : Type} [DecidableEq α] (xs : List (Option α)) :
    List.Sorted cntGE (value_counts xs) :=
  List.sorted_insertionSort _ _

theorem mem_value_counts {α : Type} [DecidableEq α] {xs : List (Option α)}
    {p : α × Nat} :
    p ∈ value_counts xs ↔ p.1 ∈ nonNull xs ∧ p.2 = (nonNull xs).count p.1 := by
  rw [(value_counts_perm xs).mem_iff, List.mem_map]
  constructor
  · rintro ⟨k, hk, he⟩
    subst he
    exact ⟨mem_firstDedup.mp hk, rfl⟩
  · rintro ⟨h1, h2⟩
    refine ⟨p.1, mem_firstDedup.mpr h1, ?_⟩
    obtain ⟨p1, p2⟩ := p
    simpa using h2.symm

theorem length_value_counts {α : Type} [DecidableEq α] (xs : List (Option α)) :
    (value_counts xs).length = nunique xs := by
  rw [(value_counts_perm xs).length_eq, List.length_map, nunique]

theorem survNames_eq (members : List MemberRow) :
    survNames members = nonNull ((survivors members).map (·.name)) := rfl

theorem joinPeak_cnt (peaks : List PeakRow) (pc : String × Nat) :
    ∀ x ∈ joinPeak peaks pc, x.2.1 = pc.2 := by
  intro x hx
  simp only [joinPeak] at hx
  split at hx
  · rw [List.mem_singleton] at hx
    rw [hx]
  · rcases List.mem_map.mp hx with ⟨p, _, he⟩
    rw [← he]

theorem filter_peakid_len_le_one (peaks : List PeakRow) (k : Option String)
    (hnd : (peaks.map (·.peakid)).Nodup) :
    (peaks.filter (fun p => decide (p.peakid = k))).length ≤ 1 := by
  induction peaks with
  | nil => simp
  | cons p ps ih =>
    rw [List.map_cons, List.nodup_cons] at hnd
    rw [List.filter_cons]
    by_cases hp : p.peakid = k
    · have htail : ps.filter (fun q => decide (q.peakid = k)) = [] := by
        rw [List.filter_eq_nil_iff]
        intro q hq hqk
        have hqe : q.peakid = k := of_decide_eq_true hqk
        exact hnd.1 ((hp.trans hqe.symm) ▸ List.mem_map_of_mem _ hq)
      simp [hp, htail]
    · have hd : decide (p.peakid = k) = false := decide_eq_false hp
      rw [hd, if_neg (by simp)]
      exact ih hnd.2

theorem joinPeak_length_one (peaks : List PeakRow) (pc : String × Nat)
    (hnd : (peaks.map (·.peakid)).Nodup) :
    (joinPeak peaks pc).length = 1 := by
  have hle := filter_peakid_len_le_one peaks (some pc.1) hnd
  simp only [joinPeak]
  split
  · rfl
  · rename_i hne
    rw [List.length_map]
    have hpos : (peaks.filter (fun p => decide (p.peakid = some pc.1))).length ≠ 0 := by
      intro h0
      exact hne (List.isEmpty_iff.mpr (List.length_eq_zero.mp h0))
    omega

theorem length_flatMap_eq {β γ : Type} (l : List β) (f : β → List γ) :
    (l.flatMap f).length = (l.map (fun b => (f b).length)).sum := by
  induction l with
  | nil => rfl
  | cons b bs ih =>
    rw [List.flatMap_cons, List.length_append, List.map_cons, List.sum_cons, ih]

theorem sum_map_ones {β : Type} (l : List β) (g : β → Nat)
    (h : ∀ b ∈ l, g b = 1) : (l.map g).sum = l.length := by
  induction l with
  | nil => rfl
  | cons b bs ih =>
    rw [List.map_cons, List.sum_cons, h b (List.mem_cons_self b bs),
        ih (fun x hx => h x (List.mem_cons_of_mem _ hx)), List.length_cons]
    omega

theorem pairwise_flatMap_desc {β γ : Type} (g : β → Nat) (h : γ → Nat)
    (f : β → List γ) (hf : ∀ b, ∀ x ∈ f b, h x = g b) (l : List β)
    (hl : List.Pairwise (fun a b => g b ≤ g a) l) :
    List.Pairwise (fun x y => h y ≤ h x) (l.flatMap f) := by
  induction l with
  | nil => simp
  | cons b bs ih =>
    rw [List.flatMap_cons, List.pairwise_append]
    rcases List.pairwise_cons.mp hl with ⟨hb, hbs⟩
    refine ⟨?_, ih hbs, ?_⟩
    · exact List.pairwise_of_forall_mem_list
        (fun x hx y hy => by rw [hf b x hx, hf b y hy])
    · intro x hx y hy
      rcases List.mem_flatMap.mp hy with ⟨b2, hb2, hy2⟩
      rw [hf b x hx, hf b2 y hy2]
      exact hb b2 hb2

theorem top_peaks_sorted (members : List MemberRow) (peaks : List PeakRow) :
    List.Pairwise (fun x y : String × Nat × Option String => y.2.1 ≤ x.2.1)
      (top_peaks members peaks) := by
  rw [top_peaks]
  exact pairwise_flatMap_desc Prod.snd (fun x => x.2.1) (joinPeak peaks)
    (joinPeak_cnt peaks) _ (sorted_value_counts _)

/-! ## The claims -/

/-- C1: the spec requires the peaks-climbed percentage to be guarded when the
Peak table has zero distinct peak identifiers, reporting the result as
indeterminate instead of surfacing an exception.  The code at line 107
divides unguarded: on an empty peak table `total_peaks = 0` and the
operation raises an uncaught `ZeroDivisionError` (modelled as `none`),
so the guard the claim describes does not exist in the code. -/
theorem C1_divide_by_zero_unguarded :
    total_peaks ([] : List PeakRow) = 0 ∧
      climbed_pct exMembers ([] : List PeakRow) = none := by
  exact ⟨by decide, by decide⟩

/-- C2: the spec requires the five analytical outputs to fail soft
independently.  The script is straight-line: on a table set whose peak
table is empty, the percentage step raises and the script dies, so the
most-successful, yearly-trend and Everest outputs are never produced
(`none` in components 3–5 of `runAnalysis`), although each of those
computations succeeds in isolation on the same tables.  An error in one
output therefore does abort the other outputs, contrary to the claim. -/
theorem C2_percentage_error_aborts_rest :
    (runAnalysis exMembers [] exExped).1 = some (top5 exMembers []) ∧
    (runAnalysis exMembers [] exExped).2.1 = none ∧
    (runAnalysis exMembers [] exExped).2.2.1 = none ∧
    (runAnalysis exMembers [] exExped).2.2.2.1 = none ∧
    (runAnalysis exMembers [] exExped).2.2.2.2 = none ∧
    most_successful exMembers = some "Alice" ∧
    trend_data exExped ≠ [] ∧
    everest_count exMembers [] = 0 := by
  refine ⟨by decide, by decide, by decide, by decide, by decide,
    by decide, by decide, by decide⟩

/-- C3 counterexample: the claim asserts the percentage lies in [0, 100]
for every member table and peak table with a positive total-peak count.
With one peak P1 and members referencing the absent peaks P2 and P3
(unmatched foreign keys are explicitly allowed by the data model), the
numerator 2 exceeds the denominator 1 and the percentage is 200. -/
theorem C3_pct_can_exceed_100 :
    0 < total_peaks cexPeaks ∧
    climbed_pct cexMembers cexPeaks = some 200 ∧
    ¬((200 : ℚ) ≤ 100) := by
  refine ⟨by decide, ?_, by norm_num⟩
  have h1 : peaks_climbed cexMembers = 2 := by decide
  have h2 : total_peaks cexPeaks = 1 := by decide
  rw [climbed_pct, h2, h1]
  norm_num

/-- C3 amended: when the total-peak count is positive the percentage is a
defined value and is nonnegative, and it is at most 100 under the extra
hypothesis that every non-null member peak identifier also occurs among
the peak identifiers of the Peak table. -/
theorem C3_pct_bounds_amended (members : List MemberRow)
    (peaks : List PeakRow) (h0 : total_peaks peaks ≠ 0)
    (hsub : ∀ x ∈ members.map (·.peakid),
      x = none ∨ x ∈ peaks.map (·.peakid)) :
    ∃ q : ℚ, climbed_pct members peaks = some q ∧ 0 ≤ q ∧ q ≤ 100 := by
  have hle : peaks_climbed members ≤ total_peaks peaks := by
    have hsub2 : firstDedup (nonNull (members.map (·.peakid))) ⊆
        firstDedup (nonNull (peaks.map (·.peakid))) := by
      intro x hx
      have hx2 : some x ∈ members.map (·.peakid) :=
        mem_nonNull.mp (mem_firstDedup.mp hx)
      rcases hsub _ hx2 with he | hp
      · cases he
      · exact mem_firstDedup.mpr (mem_nonNull.mpr hp)
    exact (List.Nodup.subperm (nodup_firstDedup _) hsub2).length_le
  have htp : (0 : ℚ) < (total_peaks peaks : ℚ) := by
    exact_mod_cast Nat.pos_of_ne_zero h0
  refine ⟨_, by rw [climbed_pct, if_neg h0], ?_, ?_⟩
  · positivity
  · have hd : (peaks_climbed members : ℚ) / (total_peaks peaks : ℚ) ≤ 1 := by
      rw [div_le_one htp]
      exact_mod_cast hle
    calc (peaks_climbed members : ℚ) / (total_peaks peaks : ℚ) * 100
        ≤ 1 * 100 := by
          exact mul_le_mul_of_nonneg_right hd (by norm_num)
      _ = 100 := by norm_num

theorem C3_pct_bounds_amended_w :
    ∃ q : ℚ, climbed_pct everestMembers everestPeaks = some q ∧
      0 ≤ q ∧ q ≤ 100 :=
  C3_pct_bounds_amended everestMembers everestPeaks (by decide) (by decide)

/-- C4: on a peak table with the single row ("Mount Everest", E1) and a
member table with three rows referencing E1 whose success indicators are
"yes", "no" and "1", the Everest successful-climber count is 2. -/
theorem C4_everest_count_two :
    everest_count everestMembers everestPeaks = 2 := by decide

/-- C5: on members [("Alice","yes"), ("Bob","no"), ("Alice","1")] the
most-successful-climber operation returns "Alice" with 2 successful rows;
and in general, whenever it returns a name, that name occurs among the
success-filtered rows together with a maximal count among those rows'
names. -/
theorem C5_most_successful_spec :
    most_successful exMembers = some "Alice" ∧
    (survNames exMembers).count "Alice" = 2 ∧
    ∀ (members : List MemberRow) (n : String),
      most_successful members = some n →
        some n ∈ (survivors members).map (·.name) ∧
        ∀ m : String,
          (survNames members).count m ≤ (survNames members).count n := by
  refine ⟨by decide, by decide, ?_⟩
  intro members n h
  rw [most_successful] at h
  rcases hvc : value_counts ((survivors members).map (·.name)) with
    _ | ⟨⟨n0, c⟩, rest⟩
  · rw [hvc] at h
    cases h
  · rw [hvc] at h
    have hn : n0 = n := by simpa using h
    subst hn
    have hmem : (n0, c) ∈ value_counts ((survivors members).map (·.name)) := by
      rw [hvc]
      exact List.mem_cons_self _ _
    have hchar := mem_value_counts.mp hmem
    refine ⟨mem_nonNull.mp hchar.1, ?_⟩
    intro m
    rw [survNames_eq]
    by_cases hm : (nonNull ((survivors members).map (·.name))).count m = 0
    · rw [hm]
      exact Nat.zero_le _
    · have hmm : m ∈ nonNull ((survivors members).map (·.name)) :=
        List.count_pos_iff.mp (Nat.pos_of_ne_zero hm)
      have hmv : (m, (nonNull ((survivors members).map (·.name))).count m) ∈
          value_counts ((survivors members).map (·.name)) :=
        mem_value_counts.mpr ⟨hmm, rfl⟩
      rw [hvc] at hmv
      rcases List.mem_cons.mp hmv with he | hrest
      · injection he with he1 he2
        subst he1
        rw [he2]
      · have hs := sorted_value_counts ((survivors members).map (·.name))
        rw [hvc] at hs
        have hle := (List.sorted_cons.mp hs).1 _ hrest
        calc (nonNull ((survivors members).map (·.name))).count m ≤ c := hle
          _ = (nonNull ((survivors members).map (·.name))).count n0 := hchar.2

theorem C5_most_successful_spec_w :
    some "Alice" ∈ (survivors exMembers).map (·.name) ∧
    (survNames exMembers).count "Bob" ≤ (survNames exMembers).count "Alice" :=
  ⟨(C5_most_successful_spec.2.2 exMembers "Alice" (by decide)).1,
   (C5_most_successful_spec.2.2 exMembers "Alice" (by decide)).2 "Bob"⟩

/-- C6: on expeditions [(2000,"success"), (2000,"failure"),
(2001,"success")], the long-form trend series contains exactly the four
entries (2000, total, 2), (2000, successful, 1), (2001, total, 1),
(2001, successful, 1). -/
theorem C6_yearly_trend_entries :
    (trend_data exExped).Perm
      [(2000, "total_expeditions", 2), (2000, "successful_expeditions", 1),
       (2001, "total_expeditions", 1),
       (2001, "successful_expeditions", 1)] := by decide

/-- C7: for a peak table whose peak identifiers are unique (the data
model's key invariant for Peak), the top-5 result has length at most 5,
is sorted descending by member-row count, and when the member table has
fewer than 5 distinct (non-null) peak identifiers its length equals that
number of distinct identifiers. -/
theorem C7_top5_shape (members : List MemberRow) (peaks : List PeakRow)
    (hnd : (peaks.map (·.peakid)).Nodup) :
    (top5 members peaks).length ≤ 5 ∧
    List.Pairwise (fun x y : String × Nat × Option String => y.2.1 ≤ x.2.1)
      (top5 members peaks) ∧
    (nunique (members.map (·.peakid)) < 5 →
      (top5 members peaks).length = nunique (members.map (·.peakid))) := by
  have hlen : (top_peaks members peaks).length =
      nunique (members.map (·.peakid)) := by
    rw [top_peaks, length_flatMap_eq,
      sum_map_ones _ _ (fun pc _ => joinPeak_length_one peaks pc hnd),
      length_value_counts]
  refine ⟨?_, ?_, ?_⟩
  · rw [top5, List.length_take]
    exact min_le_left _ _
  · exact (top_peaks_sorted members peaks).sublist (List.take_sublist _ _)
  · intro hlt
    rw [top5, List.length_take, hlen]
    omega

theorem C7_top5_shape_w :
    (top5 everestMembers everestPeaks).length =
      nunique (everestMembers.map (·.peakid)) :=
  (C7_top5_shape everestMembers everestPeaks (by decide)).2.2 (by decide)

/-- C8: the year filter keeps exactly the expedition rows whose year
equals the selected year, and a year present in no row yields the empty
view (the filter is total, no failure path). -/
theorem C8_year_filter_exact (exped : List ExpedRow) (y : Int) :
    (∀ e : ExpedRow, e ∈ filter_year exped y ↔ e ∈ exped ∧ e.year = some y) ∧
    ((∀ e ∈ exped, e.year ≠ some y) → filter_year exped y = []) := by
  constructor
  · intro e
    rw [filter_year, List.mem_filter]
    simp
  · intro h
    rw [filter_year, List.filter_eq_nil_iff]
    intro e he
    simp [h e he]

theorem C8_year_filter_exact_w : filter_year exExped 1999 = [] :=
  (C8_year_filter_exact exExped 1999).2 (by decide)

/-- C9: one full dashboard recomputation (year filter, country filter and
the five-output analysis section) returns the loaded tables unchanged:
no operation of lines 59–153 mutates a base table, so the threaded table
state after the run equals the state before it. -/
theorem C9_no_mutation (t : Tables) (y : Int) (c : String) :
    (dashboard t y c).2 = t := rfl

/-- C10: when a member row's peak id was absent, the load-time fill turns
it into the sentinel "UNKNOWN", which then flows through the
aggregations as an ordinary identifier: some filled row carries the
sentinel, the sentinel contributes one distinct peak to the
peaks-climbed numerator, and (when no real peak has id "UNKNOWN") the
ranking of climbed peaks holds an entry for it with a null display
name. -/
theorem C10_unknown_sentinel (members : List MemberRow)
    (peaks : List PeakRow) (hnull : ∃ r ∈ members, r.peakid = none)
    (hfree : some "UNKNOWN" ∉ peaks.map (·.peakid)) :
    some "UNKNOWN" ∈ (fillMembers members).map (·.peakid) ∧
    1 ≤ peaks_climbed (fillMembers members) ∧
    ("UNKNOWN",
      (nonNull ((fillMembers members).map (·.peakid))).count "UNKNOWN",
      (none : Option String)) ∈ top_peaks (fillMembers members) peaks := by
  obtain ⟨r, hr, hrn⟩ := hnull
  have hmem : some "UNKNOWN" ∈ (fillMembers members).map (·.peakid) := by
    rw [fillMembers, List.map_map]
    refine List.mem_map.mpr ⟨r, hr, ?_⟩
    simp [Function.comp, fillMemberRow, hrn, fillCell]
  have hnn : "UNKNOWN" ∈ nonNull ((fillMembers members).map (·.peakid)) :=
    mem_nonNull.mpr hmem
  refine ⟨hmem, ?_, ?_⟩
  · exact List.length_pos_of_mem (mem_firstDedup.mpr hnn)
  · rw [top_peaks]
    refine List.mem_flatMap.mpr
      ⟨("UNKNOWN",
        (nonNull ((fillMembers members).map (·.peakid))).count "UNKNOWN"),
       mem_value_counts.mpr ⟨hnn, rfl⟩, ?_⟩
    have hms : peaks.filter (fun p => decide (p.peakid = some "UNKNOWN")) = [] := by
      rw [List.filter_eq_nil_iff]
      intro p hp hdec
      exact hfree ((of_decide_eq_true hdec) ▸ List.mem_map_of_mem _ hp)
    simp [joinPeak, hms]

theorem C10_unknown_sentinel_w :
    some "UNKNOWN" ∈ (fillMembers nullMembers).map (·.peakid) ∧
    1 ≤ peaks_climbed (fillMembers nullMembers) ∧
    ("UNKNOWN",
      (nonNull ((fillMembers nullMembers).map (·.peakid))).count "UNKNOWN",
      (none : Option String)) ∈
        top_peaks (fillMembers nullMembers) everestPeaks :=
  C10_unknown_sentinel nullMembers everestPeaks (by decide) (by decide)

end Himalayan
